import Mathlib

/-!
Shallow embedding of the NexoraSmartAssistant voice-interaction controller
(the `useRealtimeVoice` hook, final revision in `src/unnamed/part_005`,
together with `calculateRMS` / `base64ToBlob` from `src/utils/audioUtils.ts`
revision `src/unnamed/part_008`).

The hook's React state (`isListening`, `isProcessing`, `isPlaying`,
`audioLevel`, `transcript`, `error`) together with the watchdog timer handle
and the VAD refs (`hasSpokenRef`, `lastSpeechTimeRef`) is modelled as a
record `VState`; each browser callback (recognition result / error, watchdog
expiry, webhook resolution, audio element events, animation frames) is an
event of `VEvent`, and `step` is the single-threaded event dispatcher.
Amplitude values are modelled as rationals; wall-clock instants as naturals
in milliseconds.
-/

namespace Nexora

/-- State owned by the `useRealtimeVoice` hook (part_005, final revision):
the six pieces of React state, plus whether the 10-second watchdog timer is
armed (`timerRef` holds a pending timeout), and the VAD refs
`hasSpokenRef` / `lastSpeechTimeRef`. -/
structure VState where
  isListening : Bool
  isProcessing : Bool
  isPlaying : Bool
  audioLevel : ℚ
  transcript : String
  error : Option String
  timerArmed : Bool
  hasSpoken : Bool
  lastSpeechTime : ℕ
  deriving Repr, DecidableEq

/-- Initial hook state: all flags false, level 0, empty transcript, no error. -/
def initState : VState :=
  { isListening := false, isProcessing := false, isPlaying := false
    audioLevel := 0, transcript := "", error := none
    timerArmed := false, hasSpoken := false, lastSpeechTime := 0 }

/-- Classification of `SpeechRecognition` error events (part_005 final
revision, `recognition.onerror`). -/
inductive RecErr where
  | notAllowed
  | noSpeech
  | network
  | aborted
  | other (code : String)
  deriving Repr, DecidableEq

/-- Message stored in ErrorState by `recognition.onerror` for each error
class; `aborted` is deliberately ignored (no message). -/
def recErrMsg : RecErr → Option String
  | .notAllowed => some "Microphone blocked. Check permissions or HTTPS."
  | .noSpeech => some "No speech detected."
  | .network => some "Network error during recognition."
  | .aborted => none
  | .other code => some ("Voice Error: " ++ code)

/-- `stopInteraction` (part_005 lines 519-539): clears the watchdog timer,
stops recognition and the visualization stream (external effects), sets
`isListening` false and `audioLevel` 0.  It touches neither `isProcessing`,
`isPlaying`, `transcript` nor `error`. -/
def stopInteraction (s : VState) : VState :=
  { s with timerArmed := false, isListening := false, audioLevel := 0 }

/-- `startInteraction` (part_005 lines 449-517).  If playing, pauses the
audio element and clears `isPlaying`; resets the VAD refs and clears the
error.  `micOk = true` models the successful path (getUserMedia granted or
mobile bypass): recognition starts, `isListening` is set and the 10-second
watchdog is (re)armed.  `micOk = false` models the `catch` branch
(getUserMedia rejected on desktop): the error is set and `isListening`
cleared — note the timer handle is not touched on this path. -/
def startInteraction (s : VState) (now : ℕ) (micOk : Bool) : VState :=
  let s1 := if s.isPlaying then { s with isPlaying := false } else s
  let s2 := { s1 with lastSpeechTime := now, hasSpoken := false, error := none }
  if micOk then
    { s2 with isListening := true, timerArmed := true }
  else
    { s2 with error := some "Microphone access denied.", isListening := false }

/-- Expiry handler of the 10-second watchdog (part_005 lines 499-507):
aborts recognition (external), runs `stopInteraction`, then stores the
time-limit error. -/
def watchdogFire (s : VState) : VState :=
  { stopInteraction s with error := some "Time limit reached (10s)." }

/-- `recognition.onresult` (part_005 lines 338-365): always clears the
watchdog; shows the interim or final text when non-empty; on a final
transcript stops capture and enters the webhook call, whose first statement
sets `isProcessing` (`sendTextToWebhook` lines 541-542). -/
def onResult (s : VState) (finalText interimText : String) : VState :=
  let s1 := { s with timerArmed := false }
  let currentText := if finalText ≠ "" then finalText else interimText
  let s2 := if currentText = "" then s1 else { s1 with transcript := currentText }
  if finalText = "" then s2
  else { stopInteraction s2 with isProcessing := true }

/-- `recognition.onerror` (part_005 lines 367-383): clears the watchdog,
stores the classified message (none for `aborted`), then stops. -/
def onRecError (s : VState) (e : RecErr) : VState :=
  let s1 := { s with timerArmed := false }
  let s2 := match recErrMsg e with
    | some m => { s1 with error := some m }
    | none => s1
  stopInteraction s2

/-- Catch-all failure branch of `sendTextToWebhook` (part_005 lines
598-602): a single generic ErrorState string, processing cleared. -/
def webhookFailedState (s : VState) : VState :=
  { s with error := some "Connection to NexoraAI failed.", isProcessing := false }

/-- Synchronous state effects of `playResponseAudio` (part_005 lines
605-639) at invocation: `isProcessing` cleared and `isPlaying` set *before*
`audio.load()` / `audio.play()` run; the `play()` promise is not handled. -/
def playResponseAudioInvoke (s : VState) : VState :=
  { s with isProcessing := false, isPlaying := true }

/-- `audio.onended` (part_005 lines 610-614). -/
def audioOnEnded (s : VState) : VState :=
  { s with isPlaying := false, isProcessing := false }

/-- Display of `audioEl.error?.code || 'Unknown'`: an absent media error or
code 0 (falsy) renders as Unknown. -/
def errCodeDisplay : Option ℕ → String
  | some c => if c = 0 then "Unknown" else toString c
  | none => "Unknown"

/-- Message built by `audio.onerror` (part_005 lines 616-629):
`Err: Size=<n>b, Code=<c>`, with a 50-character content peek appended when
the media error code is 4 (source not supported). -/
def playbackErrMsg (size : ℕ) (code : Option ℕ) (peek : String) : String :=
  let base := "Err: Size=" ++ toString size ++ "b, Code=" ++ errCodeDisplay code
  if code = some 4 then base ++ (" Content=\"" ++ peek ++ "...\"") else base

/-- `audio.onerror` (part_005 lines 616-633): stores the diagnostic message
and clears both `isPlaying` and `isProcessing`. -/
def audioOnError (s : VState) (size : ℕ) (code : Option ℕ) (peek : String) : VState :=
  { s with error := some (playbackErrMsg size code peek)
           isPlaying := false, isProcessing := false }

/-- VAD sensitivity threshold (part_005 line 432: `const threshold = 0.02`). -/
def vadThreshold : ℚ := 1 / 50

/-- Exponential moving average applied to each amplitude sample
(part_005 line 428: `prev * 0.8 + (rms * 8) * 0.2`). -/
def emaNext (level rms : ℚ) : ℚ :=
  level * (4 / 5) + rms * 8 * (1 / 5)

/-- One animation-frame callback `analyzeAudioLevel` (part_005 lines
419-447): smooths the level, then — only while listening — either records a
voiced sample (rms strictly above threshold) or, after at least one voiced
sample, forces `stopInteraction` once silence has lasted more than 1500 ms. -/
def analyzeAudioLevel (s : VState) (now : ℕ) (rms : ℚ) : VState :=
  let s1 := { s with audioLevel := emaNext s.audioLevel rms }
  if s1.isListening then
    if rms > vadThreshold then
      { s1 with lastSpeechTime := now, hasSpoken := true }
    else if s1.hasSpoken ∧ now - s1.lastSpeechTime > 1500 then
      stopInteraction s1
    else s1
  else s1

/-- The base64 alphabet used by `btoa` / `atob`. -/
def b64chars : List Char :=
  "ABCDEFGHIJKLMNOPQRSTUVWXYZabcdefghijklmnopqrstuvwxyz0123456789+/".toList

/-- Character for a six-bit group. -/
def b64char (n : ℕ) : Char := b64chars.getD n 'A'

/-- Six-bit value of an alphabet character (list index). -/
def b64index (c : Char) : ℕ := b64chars.findIdx (· == c)

/-- Standard base64 encoding of a byte sequence (RFC 4648, the encoding
`btoa` performs), the inverse the spec's round-trip property feeds into
`base64ToBlob`: three bytes become four alphabet characters, a trailing one
or two bytes are padded with `=`. -/
def encB64 : List ℕ → List Char
  | [] => []
  | [b0] => [b64char (b0 / 4), b64char (b0 % 4 * 16), '=', '=']
  | [b0, b1] =>
      [b64char (b0 / 4), b64char (b0 % 4 * 16 + b1 / 16), b64char (b1 % 16 * 4), '=']
  | b0 :: b1 :: b2 :: rest =>
      b64char (b0 / 4) :: b64char (b0 % 4 * 16 + b1 / 16) ::
      b64char (b1 % 16 * 4 + b2 / 64) :: b64char (b2 % 64) :: encB64 rest

/-- Base64 decoding as performed by `atob` followed by the
`charCodeAt` loop of `base64ToBlob` (part_008 lines 16-24): each four
characters yield three bytes, `=` padding truncating the last group.
(`atob`'s rejection of malformed input is not modelled; every input
considered here is an encoder output.) -/
def decB64 : List Char → List ℕ
  | c0 :: c1 :: c2 :: c3 :: rest =>
      if c2 = '=' then
        [b64index c0 * 4 + b64index c1 / 16]
      else if c3 = '=' then
        [b64index c0 * 4 + b64index c1 / 16,
         b64index c1 % 16 * 16 + b64index c2 / 4]
      else
        (b64index c0 * 4 + b64index c1 / 16) ::
        (b64index c1 % 16 * 16 + b64index c2 / 4) ::
        (b64index c2 % 4 * 64 + b64index c3) :: decB64 rest
  | _ => []

/-- `base64ToBlob` (part_008 lines 16-24): decodes the base64 string into a
byte array and wraps it in a blob with the default mime type `audio/mpeg`. -/
def base64ToBlob (b64 : String) : List ℕ × String :=
  (decB64 b64.toList, "audio/mpeg")

/-- Whether `small` occurs at the head of `l` (character-list comparison). -/
def charsLeadWith : List Char → List Char → Bool
  | [], _ => true
  | _ :: _, [] => false
  | a :: as, b :: bs => a == b && charsLeadWith as bs

/-- JavaScript `s.includes(pat)`: substring occurrence test. -/
def strIncludes (s pat : String) : Bool :=
  (List.range (s.toList.length + 1)).any
    (fun i => charsLeadWith pat.toList (s.toList.drop i))

/-- The dispatch test of `sendTextToWebhook` (part_005 line 567):
`contentType && contentType.includes('application/json')`, where
`contentType` is the possibly-null `content-type` header. -/
def isJsonCT : Option String → Bool
  | some ct => strIncludes ct "application/json"
  | none => false

/-- The parsed shape of a JSON webhook body: the three fields the code
inspects (`audio`, `message`, `error`), each possibly absent. -/
structure JsonVal where
  audio : Option String
  message : Option String
  error : Option String
  deriving Repr, DecidableEq

/-- JavaScript truthiness of a string-valued field: absent or the empty
string is falsy. -/
def truthyStr : Option String → Bool
  | none => false
  | some s => s != ""

/-- The raw text of a JSON-declared response body, as the code sees it:
empty (`!textData`), not parseable (`JSON.parse` throws), or a parsed value. -/
inductive JsonBody where
  | empty
  | malformed
  | val (j : JsonVal)
  deriving Repr, DecidableEq

/-- The `application/json` branch of `sendTextToWebhook` (part_005 lines
567-586), as the thrown error or produced blob: empty body and malformed
JSON throw; a truthy `audio` field is decoded by `base64ToBlob`; otherwise a
truthy `message` or `error` field is reported; otherwise the body is missing
the `audio` field. -/
def handleJsonBody : JsonBody → Except String (List ℕ × String)
  | .empty =>
      .error "n8n Server Error: Returned empty response. Check \x27Respond to Webhook\x27 node."
  | .malformed => .error "SyntaxError: JSON.parse"
  | .val j =>
      if truthyStr j.audio then
        .ok (base64ToBlob (j.audio.getD ""))
      else if truthyStr j.message || truthyStr j.error then
        .error ("Server: " ++ (if truthyStr j.message then j.message.getD "" else j.error.getD ""))
      else
        .error "n8n Error: JSON missing \x27audio\x27 field."

/-- A webhook HTTP response as observed by `sendTextToWebhook`: status,
declared content type, and the body (read as text and parsed when the
content type is JSON, as raw bytes otherwise). -/
structure WebhookResponse where
  ok : Bool
  status : ℕ
  statusText : String
  contentType : Option String
  jsonBody : JsonBody
  binaryBody : List ℕ
  deriving Repr, DecidableEq

/-- `sendTextToWebhook` (part_005 lines 541-603): sets `isProcessing`,
fails on a missing URL or a non-ok status, dispatches on the declared
content type — the JSON branch via `handleJsonBody`, the binary branch
failing on a zero-byte body and otherwise wrapping the bytes as
`audio/mpeg` regardless of the declared type.  A produced blob is handed to
`playResponseAudio` (returned as the second component); any thrown error
lands in the catch-all, which stores the generic ErrorState string and
clears `isProcessing`. -/
def sendTextToWebhook (url : String) (r : WebhookResponse) (s : VState) :
    VState × Option (List ℕ × String) :=
  let s1 := { s with isProcessing := true }
  let res : Except String (List ℕ × String) :=
    if url = "" then .error "Webhook URL is missing"
    else if !r.ok then
      .error ("Webhook failed: " ++ toString r.status ++ " " ++ r.statusText)
    else if isJsonCT r.contentType then handleJsonBody r.jsonBody
    else if r.binaryBody.length = 0 then
      .error "n8n Server Error: Returned empty binary response."
    else .ok (r.binaryBody, "audio/mpeg")
  match res with
  | .ok payload => (playResponseAudioInvoke s1, some payload)
  | .error _ => (webhookFailedState s1, none)

/-- The events the hook's single-threaded event loop dispatches: user taps
(`start` / `stop`), recognition callbacks, watchdog expiry, resolution of
the in-flight webhook call, audio element lifecycle events, and animation
frames carrying the current RMS sample. -/
inductive VEvent where
  | start (now : ℕ) (micOk : Bool)
  | stop
  | result (finalText interimText : String)
  | recError (e : RecErr)
  | watchdog
  | webhook (url : String) (r : WebhookResponse)
  | audioEnded
  | audioError (size : ℕ) (code : Option ℕ) (peek : String)
  | frame (now : ℕ) (rms : ℚ)
  deriving Repr

/-- Event dispatcher.  Guards reflect when each callback can actually fire:
recognition callbacks only while recognition is active (entered and left
together with `isListening`), the watchdog only while its timeout is armed,
webhook resolution only while a call is in flight (`isProcessing`), audio
events only while the element is playing. -/
def step (s : VState) : VEvent → VState
  | .start now micOk => startInteraction s now micOk
  | .stop => stopInteraction s
  | .result f i => if s.isListening then onResult s f i else s
  | .recError e => if s.isListening then onRecError s e else s
  | .watchdog => if s.timerArmed then watchdogFire s else s
  | .webhook url r => if s.isProcessing then (sendTextToWebhook url r s).1 else s
  | .audioEnded => if s.isPlaying then audioOnEnded s else s
  | .audioError size code peek => if s.isPlaying then audioOnError s size code peek else s
  | .frame now rms => analyzeAudioLevel s now rms

/-- Run a sequence of events from a state. -/
def run (s : VState) : List VEvent → VState
  | [] => s
  | e :: es => run (step s e) es

/-- At most one of the Listening / Processing / Speaking flags is set. -/
def atMostOneActive (s : VState) : Prop :=
  ¬(s.isListening = true ∧ s.isProcessing = true) ∧
  ¬(s.isListening = true ∧ s.isPlaying = true) ∧
  ¬(s.isProcessing = true ∧ s.isPlaying = true)

instance (s : VState) : Decidable (atMostOneActive s) := by
  unfold atMostOneActive; infer_instance

/-- Whether an event is a `startInteraction` call. -/
def isStartEvent : VEvent → Bool
  | .start _ _ => true
  | _ => false

/-- A trace is safe when `startInteraction` is never invoked while a
webhook call is in flight — the discipline the UI's orb click handler
(`App.tsx`, `handleOrbClick`) enforces with its `!isProcessing` test. -/
def safeTrace : VState → List VEvent → Bool
  | _, [] => true
  | s, e :: es => (!isStartEvent e || !s.isProcessing) && safeTrace (step s e) es

/-- The summation loop of `calculateRMS` (audioUtils.ts lines 2-8):
`sum += data[i] * data[i]` over the buffer.  Samples are modelled as
rationals (every Float32 value is rational). -/
def sumSquares (data : List ℚ) : ℚ :=
  data.foldl (fun acc x => acc + x * x) 0

/-- `calculateRMS` (audioUtils.ts lines 2-8): `Math.sqrt(sum / data.length)`
with the division by `data.length` unguarded.  For the empty buffer
JavaScript computes `0 / 0 = NaN` and `Math.sqrt NaN = NaN`; `NaN` is
modelled as `none`, every finite result as `some` of the real square root. -/
noncomputable def calculateRMS (data : List ℚ) : Option ℝ :=
  if data.length = 0 then none
  else some (Real.sqrt ((sumSquares data / (data.length : ℚ) : ℚ) : ℝ))

theorem b64char_ne_pad (n : ℕ) : b64char n ≠ '=' := by
  by_cases h : n < 64
  · have hall : ∀ i : Fin 64, b64chars.getD i.val 'A' ≠ '=' := by decide
    exact hall ⟨n, h⟩
  · unfold b64char
    rw [List.getD_eq_default _ _ (show b64chars.length ≤ n by
      have : b64chars.length = 64 := by decide
      omega)]
    decide

theorem b64index_b64char {n : ℕ} (h : n < 64) : b64index (b64char n) = n := by
  have hall : ∀ i : Fin 64, b64index (b64char i.val) = i.val := by decide
  exact hall ⟨n, h⟩

theorem decB64_encB64 : ∀ b : List ℕ, (∀ x ∈ b, x < 256) → decB64 (encB64 b) = b
  | [], _ => rfl
  | [b0], h => by
    have h0 : b0 < 256 := h b0 (by simp)
    show decB64 [b64char (b0 / 4), b64char (b0 % 4 * 16), '=', '='] = [b0]
    simp only [decB64, b64char_ne_pad, reduceIte]
    rw [b64index_b64char (by omega), b64index_b64char (by omega)]
    have e0 : b0 / 4 * 4 + b0 % 4 * 16 / 16 = b0 := by omega
    rw [e0]
  | [b0, b1], h => by
    have h0 : b0 < 256 := h b0 (by simp)
    have h1 : b1 < 256 := h b1 (by simp)
    show decB64 [b64char (b0 / 4), b64char (b0 % 4 * 16 + b1 / 16),
                 b64char (b1 % 16 * 4), '='] = [b0, b1]
    simp only [decB64, b64char_ne_pad, reduceIte]
    rw [b64index_b64char (by omega), b64index_b64char (by omega),
        b64index_b64char (by omega)]
    have e0 : b0 / 4 * 4 + (b0 % 4 * 16 + b1 / 16) / 16 = b0 := by omega
    have e1 : (b0 % 4 * 16 + b1 / 16) % 16 * 16 + b1 % 16 * 4 / 4 = b1 := by omega
    rw [e0, e1]
  | b0 :: b1 :: b2 :: rest, h => by
    have h0 : b0 < 256 := h b0 (by simp)
    have h1 : b1 < 256 := h b1 (by simp)
    have h2 : b2 < 256 := h b2 (by simp)
    have ih := decB64_encB64 rest (fun x hx => h x (by simp [hx]))
    show decB64 (b64char (b0 / 4) :: b64char (b0 % 4 * 16 + b1 / 16) ::
                 b64char (b1 % 16 * 4 + b2 / 64) :: b64char (b2 % 64) ::
                 encB64 rest) = b0 :: b1 :: b2 :: rest
    simp only [decB64, b64char_ne_pad, reduceIte]
    rw [b64index_b64char (by omega), b64index_b64char (by omega),
        b64index_b64char (by omega), b64index_b64char (by omega)]
    rw [ih]
    have e0 : b0 / 4 * 4 + (b0 % 4 * 16 + b1 / 16) / 16 = b0 := by omega
    have e1 : (b0 % 4 * 16 + b1 / 16) % 16 * 16 + (b1 % 16 * 4 + b2 / 64) / 4 = b1 := by
      omega
    have e2 : (b1 % 16 * 4 + b2 / 64) % 4 * 64 + b2 % 64 = b2 := by omega
    rw [e0, e1, e2]

/-- C4: for every byte sequence `b`, encoding `b` to base64 and passing the
result to `base64ToBlob` yields a payload whose bytes equal `b`; in
particular a non-empty `b` yields a non-empty payload. -/
theorem c4_base64_roundtrip (b : List ℕ) (h : ∀ x ∈ b, x < 256) :
    (base64ToBlob (String.mk (encB64 b))).1 = b ∧
    (b ≠ [] → (base64ToBlob (String.mk (encB64 b))).1 ≠ []) := by
  have hr : (base64ToBlob (String.mk (encB64 b))).1 = b := by
    show decB64 (String.mk (encB64 b)).toList = b
    exact decB64_encB64 b h
  refine ⟨hr, fun hne => ?_⟩
  rw [hr]
  exact hne

/-- Witness for C4: the round trip at the concrete bytes [78, 101, 120, 33]. -/
theorem c4_witness :
    (base64ToBlob (String.mk (encB64 [78, 101, 120, 33]))).1 = [78, 101, 120, 33] ∧
    (([78, 101, 120, 33] : List ℕ) ≠ [] →
      (base64ToBlob (String.mk (encB64 [78, 101, 120, 33]))).1 ≠ []) :=
  c4_base64_roundtrip [78, 101, 120, 33] (by decide)

theorem sendTextToWebhook_fst (url : String) (r : WebhookResponse) (s : VState) :
    (sendTextToWebhook url r s).1 = playResponseAudioInvoke { s with isProcessing := true } ∨
    (sendTextToWebhook url r s).1 = webhookFailedState { s with isProcessing := true } := by
  unfold sendTextToWebhook
  cases hjb : handleJsonBody r.jsonBody <;> split_ifs <;> simp_all

theorem step_preserves_atMostOne (s : VState) (e : VEvent)
    (h : atMostOneActive s)
    (hs : isStartEvent e = true → s.isProcessing = false) :
    atMostOneActive (step s e) := by
  obtain ⟨hLP, hLPl, hPPl⟩ := h
  cases e with
  | start now micOk =>
    have hp : s.isProcessing = false := hs rfl
    cases micOk <;>
      simp_all [step, startInteraction, atMostOneActive] <;>
      split_ifs <;> simp_all
  | stop =>
    simp_all [step, stopInteraction, atMostOneActive]
  | result f i =>
    by_cases hL : s.isListening = true
    · have hp : s.isProcessing = false := by
        cases hx : s.isProcessing
        · rfl
        · exact absurd ⟨hL, hx⟩ hLP
      have hpl : s.isPlaying = false := by
        cases hx : s.isPlaying
        · rfl
        · exact absurd ⟨hL, hx⟩ hLPl
      simp_all [step, onResult, stopInteraction, atMostOneActive] <;>
        split_ifs <;> simp_all
    · simp_all [step, atMostOneActive]
  | recError e =>
    by_cases hL : s.isListening = true <;>
      simp_all [step, onRecError, stopInteraction, atMostOneActive] <;>
      cases e <;> simp_all [recErrMsg]
  | watchdog =>
    by_cases hT : s.timerArmed = true <;>
      simp_all [step, watchdogFire, stopInteraction, atMostOneActive]
  | webhook url r =>
    by_cases hP : s.isProcessing = true
    · have hL : s.isListening = false := by
        cases hx : s.isListening
        · rfl
        · exact absurd ⟨hx, hP⟩ hLP
      have hpl : s.isPlaying = false := by
        cases hx : s.isPlaying
        · rfl
        · exact absurd ⟨hP, hx⟩ hPPl
      rcases sendTextToWebhook_fst url r s with hw | hw <;>
        simp_all [step, playResponseAudioInvoke, webhookFailedState, atMostOneActive]
    · simp_all [step, atMostOneActive]
  | audioEnded =>
    by_cases hPl : s.isPlaying = true <;>
      simp_all [step, audioOnEnded, atMostOneActive]
  | audioError size code peek =>
    by_cases hPl : s.isPlaying = true <;>
      simp_all [step, audioOnError, atMostOneActive]
  | frame now rms =>
    simp_all [step, analyzeAudioLevel, stopInteraction, atMostOneActive] <;>
      split_ifs <;> simp_all

theorem run_preserves_atMostOne (evs : List VEvent) :
    ∀ s : VState, atMostOneActive s → safeTrace s evs = true →
      atMostOneActive (run s evs) := by
  induction evs with
  | nil => exact fun s h _ => h
  | cons e es ih =>
    intro s h hsafe
    simp only [safeTrace, Bool.and_eq_true] at hsafe
    obtain ⟨h1, h2⟩ := hsafe
    refine ih _ (step_preserves_atMostOne s e h ?_) h2
    intro hst
    cases hp : s.isProcessing
    · rfl
    · rw [hst, hp] at h1
      simp at h1

/-- C1 (amended): along every event sequence from the initial state in
which `startInteraction` is never invoked while a webhook call is in flight
(`isProcessing` — the discipline the orb click handler enforces), at most
one of `isListening`, `isProcessing`, `isPlaying` is true at any instant.
The hook itself does not guard this precondition: a `startInteraction` call
made while Processing does leave Listening and Processing set together
(see the counterexample). -/
theorem c1_at_most_one_active_amended (evs : List VEvent)
    (h : safeTrace initState evs = true) :
    atMostOneActive (run initState evs) :=
  run_preserves_atMostOne evs initState (by decide) h

/-- Witness for C1 on a complete successful interaction: tap, final
transcript, webhook success with base64 audio, playback end. -/
theorem c1_witness :
    atMostOneActive (run initState
      [.start 0 true, .result "turn on the lights" "",
       .webhook "https://n8n.example/webhook"
         { ok := true, status := 200, statusText := "OK"
           contentType := some "application/json"
           jsonBody := .val { audio := some "QQ==", message := none, error := none }
           binaryBody := [] },
       .audioEnded]) :=
  c1_at_most_one_active_amended _ (by decide)

/-- C1 counterexample: the claim as stated fails — after a final transcript
puts the controller in Processing, a second `startInteraction` call leaves
both `isListening` and `isProcessing` true. -/
theorem c1_counterexample :
    (run initState [.start 0 true, .result "hi" "", .start 1 true]).isListening = true ∧
    (run initState [.start 0 true, .result "hi" "", .start 1 true]).isProcessing = true := by
  decide

/-- C2 (amended): the 10-second watchdog.  Entering Listening
(`startInteraction`, successful path) arms the timer; if it fires — which
requires it still armed, i.e. neither a final transcript, a recognition
error, nor any stop has cleared it — the controller leaves Listening with
`audioLevel` 0 and ErrorState set to a message mentioning the 10-second
limit; and every exit from Listening other than the microphone-failure
catch of a re-entrant `startInteraction` call also disarms the timer.
(That catch clears `isListening` without touching the armed timeout — see
the counterexample.) -/
theorem c2_watchdog_amended :
    (∀ (s : VState) (now : ℕ), (startInteraction s now true).timerArmed = true) ∧
    (∀ s : VState, s.timerArmed = true →
      (step s .watchdog).isListening = false ∧
      (step s .watchdog).audioLevel = 0 ∧
      (step s .watchdog).error = some ("Time limit reached (" ++ "10s" ++ ").")) ∧
    (∀ (s : VState) (e : VEvent), s.isListening = true →
      (∀ now : ℕ, e ≠ .start now false) →
      (step s e).isListening = false → (step s e).timerArmed = false) := by
  refine ⟨?_, ?_, ?_⟩
  · intro s now
    unfold startInteraction
    split_ifs <;> simp_all
  · intro s h
    refine ⟨?_, ?_, ?_⟩ <;>
      simp [step, h, watchdogFire, stopInteraction]
  · intro s e hL hne hpost
    cases e with
    | start now micOk =>
      cases micOk
      · exact absurd rfl (hne now)
      · simp [step, startInteraction] at hpost
    | stop => simp [step, stopInteraction]
    | result f i =>
      simp only [step, hL, if_true]
      by_cases hf : f = "" <;> by_cases hi : i = "" <;>
        simp [onResult, stopInteraction, hf, hi]
    | recError e =>
      simp only [step, hL, if_true]
      unfold onRecError
      cases e <;> simp [recErrMsg, stopInteraction]
    | watchdog =>
      cases hT : s.timerArmed <;>
        simp_all [step, watchdogFire, stopInteraction]
    | webhook url r =>
      rcases sendTextToWebhook_fst url r s with hw | hw <;>
        by_cases hP : s.isProcessing = true <;>
        simp_all [step, playResponseAudioInvoke, webhookFailedState]
    | audioEnded =>
      by_cases hPl : s.isPlaying = true <;>
        simp_all [step, audioOnEnded]
    | audioError size code peek =>
      by_cases hPl : s.isPlaying = true <;>
        simp_all [step, audioOnError]
    | frame now rms =>
      revert hpost
      simp only [step]
      unfold analyzeAudioLevel
      by_cases hv : vadThreshold < rms <;>
        by_cases hsp : s.hasSpoken = true ∧ 1500 < now - s.lastSpeechTime <;>
        simp [hL, hv, hsp, stopInteraction]

/-- Witness for C2: firing the watchdog from an armed Listening state. -/
theorem c2_witness :
    (step { initState with isListening := true, timerArmed := true }
        .watchdog).isListening = false ∧
    (step { initState with isListening := true, timerArmed := true }
        .watchdog).audioLevel = 0 ∧
    (step { initState with isListening := true, timerArmed := true }
        .watchdog).error = some ("Time limit reached (" ++ "10s" ++ ").") :=
  c2_watchdog_amended.2.1 _ rfl

/-- C2 counterexample: the claim's "cancelled on every earlier exit from
Listening" fails — a second `startInteraction` call whose getUserMedia is
rejected exits Listening (isListening false) but leaves the watchdog
armed. -/
theorem c2_counterexample :
    (run initState [.start 0 true, .start 1 false]).isListening = false ∧
    (run initState [.start 0 true, .start 1 false]).timerArmed = true := by
  decide

/-- C8 (amended): `startInteraction` on its successful path always ends
with playback stopped (`isPlaying` false — pausing the element first when
it was Speaking), ErrorState reset to null and Listening entered, but the
Transcript is left unchanged: the hook never clears it, it is only
overwritten by the next recognition result. -/
theorem c8_start_resets_amended (s : VState) (now : ℕ) :
    (startInteraction s now true).isPlaying = false ∧
    (startInteraction s now true).error = none ∧
    (startInteraction s now true).isListening = true ∧
    (startInteraction s now true).transcript = s.transcript := by
  unfold startInteraction
  split_ifs <;> simp_all

/-- C8 counterexample: starting a new interaction while Speaking with a
previous utterance on record leaves the Transcript as-is instead of
resetting it to the empty string. -/
theorem c8_counterexample :
    (startInteraction
        { initState with transcript := "turn on the lights", isPlaying := true }
        5 true).transcript = "turn on the lights" ∧
    "turn on the lights" ≠ "" := by
  decide

/-- C3 (amended): classification of `application/json` webhook responses by
`sendTextToWebhook`.  An empty body throws the empty-response error; a body
with a *non-empty* `audio` field is decoded by `base64ToBlob` and handed to
playback; a body with a *non-empty* `message` or `error` field (and no
non-empty `audio`) throws the server-reported error; any other parsed body —
including one whose `audio`, `message` or `error` fields are present but
empty strings, since the code tests JavaScript truthiness — throws the
missing-audio-field error.  Whenever the JSON branch throws, ErrorState is
set (to the generic connection-failure string), `isProcessing` is reset to
false and `playResponseAudio` is never invoked. -/
theorem c3_json_classification_amended :
    (handleJsonBody .empty =
      .error "n8n Server Error: Returned empty response. Check \x27Respond to Webhook\x27 node.") ∧
    (∀ j : JsonVal, truthyStr j.audio = true →
      handleJsonBody (.val j) = .ok (base64ToBlob (j.audio.getD ""))) ∧
    (∀ j : JsonVal, truthyStr j.audio = false →
      (truthyStr j.message || truthyStr j.error) = true →
      handleJsonBody (.val j) =
        .error ("Server: " ++
          (if truthyStr j.message then j.message.getD "" else j.error.getD ""))) ∧
    (∀ j : JsonVal, truthyStr j.audio = false →
      (truthyStr j.message || truthyStr j.error) = false →
      handleJsonBody (.val j) = .error "n8n Error: JSON missing \x27audio\x27 field.") ∧
    (∀ (url : String) (r : WebhookResponse) (s : VState) (msg : String),
      url ≠ "" → r.ok = true → isJsonCT r.contentType = true →
      handleJsonBody r.jsonBody = .error msg →
      (sendTextToWebhook url r s).2 = none ∧
      (sendTextToWebhook url r s).1.error = some "Connection to NexoraAI failed." ∧
      (sendTextToWebhook url r s).1.isProcessing = false) := by
  refine ⟨rfl, ?_, ?_, ?_, ?_⟩
  · intro j h
    simp [handleJsonBody, h]
  · intro j h1 h2
    simp [handleJsonBody, h1, h2]
  · intro j h1 h2
    simp [handleJsonBody, h1, h2]
  · intro url r s msg hu hok hct hj
    unfold sendTextToWebhook
    simp [hu, hok, hct, hj, webhookFailedState]

/-- Witness for C3: a response whose body carries base64 `"QQ=="` in its
`audio` field is decoded and handed to playback. -/
theorem c3_witness :
    handleJsonBody (.val { audio := some "QQ==", message := none, error := none }) =
      .ok (base64ToBlob "QQ==") :=
  c3_json_classification_amended.2.1 _ rfl

/-- C3 counterexample: the claim as stated fails — the body
`\x7b"audio": ""\x7d` has an `audio` field, yet the code classifies it as
missing the audio field and playback is never invoked. -/
theorem c3_counterexample :
    handleJsonBody (.val { audio := some "", message := none, error := none }) =
      .error "n8n Error: JSON missing \x27audio\x27 field." ∧
    (sendTextToWebhook "https://n8n.example/webhook"
      { ok := true, status := 200, statusText := "OK"
        contentType := some "application/json"
        jsonBody := .val { audio := some "", message := none, error := none }
        binaryBody := [] } initState).2 = none :=
  ⟨rfl, rfl⟩

/-- C6: the non-JSON branch of `sendTextToWebhook`.  A zero-byte binary
body sets ErrorState, resets `isProcessing` and never invokes
`playResponseAudio`; a non-empty binary body is wrapped as `audio/mpeg` —
regardless of the declared content type `r.contentType` — and handed to
playback. -/
theorem c6_binary_branch (url : String) (r : WebhookResponse) (s : VState)
    (hu : url ≠ "") (hok : r.ok = true) (hct : isJsonCT r.contentType = false) :
    (r.binaryBody = [] →
      (sendTextToWebhook url r s).2 = none ∧
      (sendTextToWebhook url r s).1.error = some "Connection to NexoraAI failed." ∧
      (sendTextToWebhook url r s).1.isProcessing = false) ∧
    (r.binaryBody ≠ [] →
      (sendTextToWebhook url r s).2 = some (r.binaryBody, "audio/mpeg") ∧
      (sendTextToWebhook url r s).1.isPlaying = true ∧
      (sendTextToWebhook url r s).1.isProcessing = false) := by
  constructor
  · intro hb
    unfold sendTextToWebhook
    simp [hu, hok, hct, hb, webhookFailedState]
  · intro hb
    unfold sendTextToWebhook
    simp [hu, hok, hct, List.length_eq_zero, hb, playResponseAudioInvoke]

/-- Witness for C6: three raw bytes declared as `application/octet-stream`
are nevertheless handed to playback wrapped as `audio/mpeg`. -/
theorem c6_witness :
    (sendTextToWebhook "https://n8n.example/webhook"
      { ok := true, status := 200, statusText := "OK"
        contentType := some "application/octet-stream"
        jsonBody := .empty, binaryBody := [73, 68, 51] } initState).2 =
      some ([73, 68, 51], "audio/mpeg") ∧
    (sendTextToWebhook "https://n8n.example/webhook"
      { ok := true, status := 200, statusText := "OK"
        contentType := some "application/octet-stream"
        jsonBody := .empty, binaryBody := [73, 68, 51] } initState).1.isPlaying = true ∧
    (sendTextToWebhook "https://n8n.example/webhook"
      { ok := true, status := 200, statusText := "OK"
        contentType := some "application/octet-stream"
        jsonBody := .empty, binaryBody := [73, 68, 51] } initState).1.isProcessing = false :=
  (c6_binary_branch _ _ _ (by decide) rfl (by decide)).2 (by decide)

theorem string_append_assoc (a b c : String) : a ++ b ++ c = a ++ (b ++ c) := by
  cases a with | mk da =>
  cases b with | mk db =>
  cases c with | mk dc =>
  show String.mk (da ++ db ++ dc) = String.mk (da ++ (db ++ dc))
  rw [List.append_assoc]

/-- C7 (amended): on a failure reported through the audio element's error
event, the controller stores a descriptive ErrorState embedding the payload
size (and the decode error code where obtainable) and clears `isPlaying`
and `isProcessing`, returning to Idle.  However, `playResponseAudio` sets
`isPlaying` true already when the payload is handed to the element — before
any playback has started — so Speaking is transiently true for the failing
payload, and a rejected `play()` promise (autoplay policy) is not handled
by this revision at all. -/
theorem c7_playback_failure_amended (s : VState) (size : ℕ)
    (code : Option ℕ) (peek : String) :
    (playResponseAudioInvoke s).isPlaying = true ∧
    (audioOnError (playResponseAudioInvoke s) size code peek).error =
      some (playbackErrMsg size code peek) ∧
    (audioOnError (playResponseAudioInvoke s) size code peek).isPlaying = false ∧
    (audioOnError (playResponseAudioInvoke s) size code peek).isProcessing = false ∧
    (∃ rest : String,
      playbackErrMsg size code peek =
        "Err: Size=" ++ toString size ++ "b, Code=" ++ rest) := by
  refine ⟨rfl, rfl, rfl, rfl, ?_⟩
  unfold playbackErrMsg
  by_cases h : code = some 4
  · refine ⟨errCodeDisplay code ++ (" Content=\"" ++ peek ++ "...\""), ?_⟩
    rw [if_pos h, string_append_assoc]
  · exact ⟨errCodeDisplay code, by rw [if_neg h]⟩

/-- C7 counterexample: the claim's "without the Speaking state ever having
been true for that payload" fails — handing a payload to
`playResponseAudio` sets `isPlaying` true immediately, before any playback
or error event, and only the subsequent error event clears it again. -/
theorem c7_counterexample :
    (playResponseAudioInvoke initState).isPlaying = true ∧
    (audioOnError (playResponseAudioInvoke initState) 5 (some 4) "x").error =
      some (playbackErrMsg 5 (some 4) "x") ∧
    (audioOnError (playResponseAudioInvoke initState) 5 (some 4) "x").isPlaying = false :=
  ⟨rfl, rfl, rfl⟩

theorem analyzeAudioLevel_silent_within (s : VState) (t : ℕ) (r : ℚ)
    (hL : s.isListening = true) (hS : s.hasSpoken = true)
    (hr : r ≤ vadThreshold) (ht : t ≤ s.lastSpeechTime + 1500) :
    (analyzeAudioLevel s t r).isListening = true ∧
    (analyzeAudioLevel s t r).hasSpoken = true ∧
    (analyzeAudioLevel s t r).lastSpeechTime = s.lastSpeechTime ∧
    (analyzeAudioLevel s t r).error = s.error := by
  unfold analyzeAudioLevel
  have hv : ¬(vadThreshold < r) := not_lt.mpr hr
  have hsil : ¬(1500 < t - s.lastSpeechTime) := by omega
  simp [hL, hS, hv, hsil]

/-- C5: during Listening, once a voiced sample has been recorded
(`hasSpoken`), a run of animation frames whose RMS values all stay at or
below the VAD threshold, the last of which falls more than 1500 ms after
the last voiced sample, forces the `stopInteraction` path: capture is torn
down (`isListening` false, `audioLevel` 0) and ErrorState is left exactly
as it was — no error is set. -/
theorem c5_vad_silence_stop (pre : List (ℕ × ℚ)) (t : ℕ) (r : ℚ) :
    ∀ s : VState, s.isListening = true → s.hasSpoken = true →
    (∀ p ∈ pre, p.2 ≤ vadThreshold ∧ p.1 ≤ s.lastSpeechTime + 1500) →
    r ≤ vadThreshold → s.lastSpeechTime + 1500 < t →
    (run s (pre.map (fun p => VEvent.frame p.1 p.2) ++ [VEvent.frame t r])).isListening = false ∧
    (run s (pre.map (fun p => VEvent.frame p.1 p.2) ++ [VEvent.frame t r])).audioLevel = 0 ∧
    (run s (pre.map (fun p => VEvent.frame p.1 p.2) ++ [VEvent.frame t r])).error = s.error := by
  induction pre with
  | nil =>
    intro s hL hS _ hr ht
    simp only [List.map_nil, List.nil_append, run]
    show (analyzeAudioLevel s t r).isListening = false ∧
      (analyzeAudioLevel s t r).audioLevel = 0 ∧
      (analyzeAudioLevel s t r).error = s.error
    unfold analyzeAudioLevel
    have hv : ¬(vadThreshold < r) := not_lt.mpr hr
    have hsil : s.hasSpoken = true ∧ 1500 < t - s.lastSpeechTime := ⟨hS, by omega⟩
    simp [hL, hv, hsil, stopInteraction]
  | cons p ps ih =>
    intro s hL hS hpre hr ht
    obtain ⟨h1, h2⟩ := hpre p (List.mem_cons_self p ps)
    have hinv := analyzeAudioLevel_silent_within s p.1 p.2 hL hS h1 h2
    have hstep : step s (VEvent.frame p.1 p.2) = analyzeAudioLevel s p.1 p.2 := rfl
    simp only [List.map_cons, List.cons_append, run, hstep]
    have hrec := ih (analyzeAudioLevel s p.1 p.2) hinv.1 hinv.2.1
      (fun q hq => by
        obtain ⟨hq1, hq2⟩ := hpre q (List.mem_cons_of_mem p hq)
        rw [hinv.2.2.1]
        exact ⟨hq1, hq2⟩)
      hr
      (by rw [hinv.2.2.1]; exact ht)
    rw [hinv.2.2.2] at hrec
    exact hrec

/-- Witness for C5: a voiced session, two quiet frames inside the window,
then a quiet frame 1600 ms after the last voiced sample stops cleanly. -/
theorem c5_witness :
    (run { initState with isListening := true, timerArmed := true, hasSpoken := true }
      ([(700, 1 / 100), (1400, 0)].map (fun p => VEvent.frame p.1 p.2) ++
        [VEvent.frame 1600 0])).isListening = false ∧
    (run { initState with isListening := true, timerArmed := true, hasSpoken := true }
      ([(700, 1 / 100), (1400, 0)].map (fun p => VEvent.frame p.1 p.2) ++
        [VEvent.frame 1600 0])).audioLevel = 0 ∧
    (run { initState with isListening := true, timerArmed := true, hasSpoken := true }
      ([(700, 1 / 100), (1400, 0)].map (fun p => VEvent.frame p.1 p.2) ++
        [VEvent.frame 1600 0])).error = none :=
  c5_vad_silence_stop [(700, 1 / 100), (1400, 0)] 1600 0 _ rfl rfl
    (by
      intro p hp
      fin_cases hp <;> exact ⟨by norm_num [vadThreshold], by norm_num [initState]⟩)
    (by norm_num [vadThreshold])
    (by norm_num [initState])

/-- C9 (amended): each amplitude update applies exactly the EMA
`level' = level*0.8 + (rms*8)*0.2` of the code (or resets the level to 0 on
the VAD stop path), and for RMS samples in [0, 1] the level stays within
[0, 8] — the fixpoint of the EMA under full-scale input is 8, so the
claimed upper bound 1 does not hold (see the counterexample). -/
theorem c9_audio_level_bounds_amended (s : VState) (now : ℕ) (rms : ℚ)
    (h0 : 0 ≤ s.audioLevel) (h8 : s.audioLevel ≤ 8)
    (hr0 : 0 ≤ rms) (hr1 : rms ≤ 1) :
    ((analyzeAudioLevel s now rms).audioLevel = emaNext s.audioLevel rms ∨
     (analyzeAudioLevel s now rms).audioLevel = 0) ∧
    0 ≤ (analyzeAudioLevel s now rms).audioLevel ∧
    (analyzeAudioLevel s now rms).audioLevel ≤ 8 := by
  have hb0 : 0 ≤ emaNext s.audioLevel rms := by
    unfold emaNext
    nlinarith
  have hb8 : emaNext s.audioLevel rms ≤ 8 := by
    unfold emaNext
    nlinarith
  unfold analyzeAudioLevel
  cases hL : s.isListening <;>
    by_cases hv : vadThreshold < rms <;>
    by_cases hsp : s.hasSpoken = true ∧ 1500 < now - s.lastSpeechTime <;>
    norm_num [hL, hv, hsp, stopInteraction, hb0, hb8]

/-- Witness for C9 at level 1/2 and RMS 1/50. -/
theorem c9_witness :
    ((analyzeAudioLevel { initState with audioLevel := 1 / 2 } 0 (1 / 50)).audioLevel =
       emaNext (1 / 2) (1 / 50) ∨
     (analyzeAudioLevel { initState with audioLevel := 1 / 2 } 0 (1 / 50)).audioLevel = 0) ∧
    0 ≤ (analyzeAudioLevel { initState with audioLevel := 1 / 2 } 0 (1 / 50)).audioLevel ∧
    (analyzeAudioLevel { initState with audioLevel := 1 / 2 } 0 (1 / 50)).audioLevel ≤ 8 :=
  c9_audio_level_bounds_amended _ 0 (1 / 50)
    (by show (0 : ℚ) ≤ 1 / 2; norm_num)
    (by show (1 / 2 : ℚ) ≤ 8; norm_num)
    (by norm_num) (by norm_num)

/-- C9 counterexample: the claimed interval [0, 1] fails — a single
full-scale sample (RMS 1, e.g. an all-ones capture buffer) from level 0
yields 8/5 > 1. -/
theorem c9_counterexample :
    emaNext 0 1 = 8 / 5 ∧ ¬(emaNext 0 1 ≤ 1) ∧
    (analyzeAudioLevel initState 0 1).audioLevel = 8 / 5 := by
  refine ⟨by norm_num [emaNext], by norm_num [emaNext], ?_⟩
  show emaNext (0 : ℚ) 1 = 8 / 5
  norm_num [emaNext]

theorem sum_squares_le :
    ∀ l : List ℚ, (∀ x ∈ l, -1 ≤ x ∧ x ≤ 1) →
      (l.map (fun x => x * x)).sum ≤ (l.length : ℚ)
  | [], _ => by simp
  | x :: xs, hb => by
    have h1 := (hb x (by simp)).1
    have h2 := (hb x (by simp)).2
    have ih := sum_squares_le xs (fun y hy => hb y (by simp [hy]))
    simp only [List.map_cons, List.sum_cons, List.length_cons]
    push_cast
    nlinarith

theorem sumSquares_eq (data : List ℚ) :
    sumSquares data = (data.map (fun x => x * x)).sum := by
  have h : ∀ a : ℚ, data.foldl (fun acc x => acc + x * x) a =
      a + (data.map (fun x => x * x)).sum := by
    induction data with
    | nil => intro a; simp
    | cons x xs ih =>
      intro a
      simp only [List.foldl_cons, List.map_cons, List.sum_cons, ih]
      ring
  simpa [sumSquares] using h 0

/-- C10: for every non-empty buffer with samples in [-1, 1],
`calculateRMS` returns the square root of the mean of the squared samples,
a value that is non-negative and at most 1; for the empty buffer the
unguarded division gives `0 / 0 = NaN` (modelled `none`), not 0. -/
theorem c10_calculate_rms (data : List ℚ) (hne : data ≠ [])
    (hb : ∀ x ∈ data, -1 ≤ x ∧ x ≤ 1) :
    (calculateRMS data =
      some (Real.sqrt (((data.map (fun x => x * x)).sum / (data.length : ℚ) : ℚ) : ℝ)) ∧
     ∃ rVal : ℝ, calculateRMS data = some rVal ∧ 0 ≤ rVal ∧ rVal ≤ 1) ∧
    calculateRMS [] = none := by
  have hlen : data.length ≠ 0 := by simpa using hne
  have hlenq : (0 : ℚ) < (data.length : ℚ) := by
    exact_mod_cast Nat.pos_of_ne_zero hlen
  refine ⟨⟨?_, ?_⟩, rfl⟩
  · unfold calculateRMS
    rw [if_neg hlen, sumSquares_eq]
  · refine ⟨Real.sqrt ((sumSquares data / (data.length : ℚ) : ℚ) : ℝ), ?_, ?_, ?_⟩
    · unfold calculateRMS
      rw [if_neg hlen]
    · exact Real.sqrt_nonneg _
    · apply Real.sqrt_le_one.mpr
      have hq : sumSquares data / (data.length : ℚ) ≤ 1 := by
        rw [div_le_one hlenq, sumSquares_eq]
        exact sum_squares_le data hb
      exact_mod_cast hq

/-- Witness for C10 at the buffer [1/2, 1/2]. -/
theorem c10_witness :
    (calculateRMS [1 / 2, 1 / 2] =
      some (Real.sqrt (((([1 / 2, 1 / 2] : List ℚ).map (fun x => x * x)).sum /
        ((([1 / 2, 1 / 2] : List ℚ).length : ℚ)) : ℚ) : ℝ)) ∧
     ∃ rVal : ℝ, calculateRMS [1 / 2, 1 / 2] = some rVal ∧ 0 ≤ rVal ∧ rVal ≤ 1) ∧
    calculateRMS [] = none :=
  c10_calculate_rms [1 / 2, 1 / 2] (by simp)
    (by
      intro x hx
      fin_cases hx <;> constructor <;> norm_num)

end Nexora
